import Mathlib

/-!
Shallow embedding of the OP-TEE undefined-behavior sanitizer runtime
(`ubsan.c`): the source-location dedup flag, the dedup/report core
`ubsan_handle_error`, the per-kind `__ubsan_handle_*` entry points, and a
small interleaving model of the lock-free compare-and-swap dedup.

Modelling conventions:
* `uint32_t` values are `Nat`; where the C semantics depends on the 32-bit
  width a hypothesis such as `column < 2^31` (bit 31 clear in a `u32`) or
  `column &&& UBSAN_LOC_REPORTED ≠ 0` (bit 31 set) makes the domain explicit.
* The in-place mutation of `loc->column` is explicit state passing: each
  operation returns the updated `source_location`.
* `EMSG_RAW` output is modelled as the list of emitted lines.
* A call to the context-specific halt primitive (`ubsan_panic`, which never
  returns: `panic()` / `_ldelf_panic(2)` / `_utee_panic(TEE_ERROR_GENERIC)`
  followed by an unconditional `while (1)` backstop) is modelled by the
  `halted` flag of a result: `halted = true` means control was transferred to
  the halt primitive and never returns to the caller.
* The global `static bool should_panic = true` is passed explicitly as the
  `sp` argument of every entry point; its default is `should_panic_default`.
-/

/-- C: `#define UBSAN_LOC_REPORTED BIT32(31)` — the reserved "already
reported" flag, bit 31 of `source_location.column`. -/
def UBSAN_LOC_REPORTED : Nat := 2^31

/-- C: `struct source_location { const char *file_name; uint32_t line;
uint32_t column; }`. -/
structure source_location where
  file_name : String
  line : Nat
  column : Nat
deriving DecidableEq

/-- C: `struct type_descriptor`. -/
structure type_descriptor where
  type_kind : Nat
  type_info : Nat
  type_name : String
deriving DecidableEq

/-- C: `struct type_mismatch_data`. -/
structure type_mismatch_data where
  loc : source_location
  type : type_descriptor
  alignment : Nat
  type_check_kind : Nat
deriving DecidableEq

/-- C: `struct overflow_data`. -/
structure overflow_data where
  loc : source_location
  type : type_descriptor
deriving DecidableEq

/-- C: `struct shift_out_of_bounds_data`. -/
structure shift_out_of_bounds_data where
  loc : source_location
  lhs_type : type_descriptor
  rhs_type : type_descriptor
deriving DecidableEq

/-- C: `struct out_of_bounds_data`. -/
structure out_of_bounds_data where
  loc : source_location
  array_type : type_descriptor
  index_type : type_descriptor
deriving DecidableEq

/-- C: `struct unreachable_data`. -/
structure unreachable_data where
  loc : source_location
deriving DecidableEq

/-- C: `struct vla_bound_data`. -/
structure vla_bound_data where
  loc : source_location
  type : type_descriptor
deriving DecidableEq

/-- C: `struct invalid_value_data`. -/
structure invalid_value_data where
  loc : source_location
  type : type_descriptor
deriving DecidableEq

/-- C: `struct nonnull_arg_data`. -/
structure nonnull_arg_data where
  loc : source_location
deriving DecidableEq

/-- C: `struct invalid_builtin_data`. -/
structure invalid_builtin_data where
  loc : source_location
  kind : Nat
deriving DecidableEq

/-- C: `static bool should_panic = true;` — default value of the global
policy flag (nothing in this module ever writes it). -/
def should_panic_default : Bool := true

/-- C: `was_already_reported`, sequential (interference-free) semantics.
The function reads `loc->column`; if bit 31 is set it returns true,
otherwise it compare-and-swaps `column | UBSAN_LOC_REPORTED` into place and
returns the negation of the CAS success.  With no interference between the
read and the CAS, the CAS always succeeds, so the fresh branch returns
`false` and sets the bit.  (The racy semantics is modelled separately by
`thread_step`/`sched_run` below.) -/
def was_already_reported (loc : source_location) : Bool × source_location :=
  let column := loc.column
  if column &&& UBSAN_LOC_REPORTED ≠ 0 then
    (true, loc)
  else
    (false, { loc with column := column ||| UBSAN_LOC_REPORTED })

/-- C: `const char func_prefix[] = "__ubsan_handle";` (14 characters,
`sizeof` = 15 with the terminating NUL). -/
def func_pfx_str : String := "__ubsan_handle"

/-- C: `if (!memcmp(f, func_prefix, sizeof(func_prefix) - 1)) f +=
sizeof(func_prefix);` — when the first 14 bytes of `func` equal
`"__ubsan_handle"`, skip 15 bytes (the prefix and the character after it,
an underscore for every actual handler name). -/
def strip_func_pfx (func : String) : String :=
  if func.take 14 = func_pfx_str then func.drop 15 else func

/-- C: `EMSG_RAW("Undefined behavior %s at %s:%" PRIu32 " col %" PRIu32,
f, loc->file_name, loc->line, loc->column & ~UBSAN_LOC_REPORTED)`. -/
def emsg_raw_line (f file : String) (line col : Nat) : String :=
  "Undefined behavior " ++ f ++ " at " ++ file ++ ":" ++ toString line
    ++ " col " ++ toString col

/-- Result of one call to the dedup/report core: the updated location, the
lines written to the log, and whether control was transferred to the halt
primitive (which never returns). -/
structure report_result where
  loc : source_location
  emitted : List String
  halted : Bool
deriving DecidableEq

/-- C: `ubsan_handle_error(const char *func, struct source_location *loc,
bool panic_flag)`.  Dedup via `was_already_reported`; on the first report,
strip the `__ubsan_handle` prefix from `func`, emit one `EMSG_RAW` line
(the column is printed as `loc->column & ~UBSAN_LOC_REPORTED`, i.e. masked
with `2^31 - 1` on a `u32`, read back after the flag was set), then call
`ubsan_panic()` iff `panic_flag` is set. -/
def ubsan_handle_error (func : String) (loc : source_location)
    (panic_flag : Bool) : report_result :=
  match was_already_reported loc with
  | (true, loc1) => { loc := loc1, emitted := [], halted := false }
  | (false, loc1) =>
      { loc := loc1
        emitted := [emsg_raw_line (strip_func_pfx func) loc1.file_name
          loc1.line (loc1.column &&& (UBSAN_LOC_REPORTED - 1))]
        halted := panic_flag }

/-- Result of one `__ubsan_handle_*` entry point: the updated descriptor
(the location is mutated in place in C), the emitted lines, and whether the
halt primitive was invoked. -/
structure handler_result (α : Type) where
  data : α
  emitted : List String
  halted : Bool
deriving DecidableEq

/-- C: `__ubsan_handle_type_mismatch(struct type_mismatch_data *data,
unsigned long ptr __unused)`; `sp` is the current value of the global
`should_panic`. -/
def __ubsan_handle_type_mismatch (sp : Bool) (data : type_mismatch_data)
    (ptr : Nat) : handler_result type_mismatch_data :=
  let r := ubsan_handle_error "__ubsan_handle_type_mismatch" data.loc sp
  { data := { data with loc := r.loc }, emitted := r.emitted,
    halted := r.halted }

/-- C: `__ubsan_handle_type_mismatch_v1(void *data_, void *ptr __unused)` —
casts `data_` to `struct type_mismatch_data *` and funnels into the same
reporting path, under its own `__func__`. -/
def __ubsan_handle_type_mismatch_v1 (sp : Bool) (data : type_mismatch_data)
    (ptr : Nat) : handler_result type_mismatch_data :=
  let r := ubsan_handle_error "__ubsan_handle_type_mismatch_v1" data.loc sp
  { data := { data with loc := r.loc }, emitted := r.emitted,
    halted := r.halted }

/-- C: `__ubsan_handle_add_overflow(void *data_, void *lhs __unused,
void *rhs __unused)`. -/
def __ubsan_handle_add_overflow (sp : Bool) (data : overflow_data)
    (lhs rhs : Nat) : handler_result overflow_data :=
  let r := ubsan_handle_error "__ubsan_handle_add_overflow" data.loc sp
  { data := { data with loc := r.loc }, emitted := r.emitted,
    halted := r.halted }

/-- C: `__ubsan_handle_sub_overflow`. -/
def __ubsan_handle_sub_overflow (sp : Bool) (data : overflow_data)
    (lhs rhs : Nat) : handler_result overflow_data :=
  let r := ubsan_handle_error "__ubsan_handle_sub_overflow" data.loc sp
  { data := { data with loc := r.loc }, emitted := r.emitted,
    halted := r.halted }

/-- C: `__ubsan_handle_mul_overflow`. -/
def __ubsan_handle_mul_overflow (sp : Bool) (data : overflow_data)
    (lhs rhs : Nat) : handler_result overflow_data :=
  let r := ubsan_handle_error "__ubsan_handle_mul_overflow" data.loc sp
  { data := { data with loc := r.loc }, emitted := r.emitted,
    halted := r.halted }

/-- C: `__ubsan_handle_negate_overflow(void *data_, void *old_val
__unused)`. -/
def __ubsan_handle_negate_overflow (sp : Bool) (data : overflow_data)
    (old_val : Nat) : handler_result overflow_data :=
  let r := ubsan_handle_error "__ubsan_handle_negate_overflow" data.loc sp
  { data := { data with loc := r.loc }, emitted := r.emitted,
    halted := r.halted }

/-- C: `__ubsan_handle_divrem_overflow`. -/
def __ubsan_handle_divrem_overflow (sp : Bool) (data : overflow_data)
    (lhs rhs : Nat) : handler_result overflow_data :=
  let r := ubsan_handle_error "__ubsan_handle_divrem_overflow" data.loc sp
  { data := { data with loc := r.loc }, emitted := r.emitted,
    halted := r.halted }

/-- C: `__ubsan_handle_pointer_overflow`. -/
def __ubsan_handle_pointer_overflow (sp : Bool) (data : overflow_data)
    (lhs rhs : Nat) : handler_result overflow_data :=
  let r := ubsan_handle_error "__ubsan_handle_pointer_overflow" data.loc sp
  { data := { data with loc := r.loc }, emitted := r.emitted,
    halted := r.halted }

/-- C: `__ubsan_handle_shift_out_of_bounds`. -/
def __ubsan_handle_shift_out_of_bounds (sp : Bool)
    (data : shift_out_of_bounds_data) (lhs rhs : Nat) :
    handler_result shift_out_of_bounds_data :=
  let r := ubsan_handle_error "__ubsan_handle_shift_out_of_bounds" data.loc sp
  { data := { data with loc := r.loc }, emitted := r.emitted,
    halted := r.halted }

/-- C: `__ubsan_handle_out_of_bounds(void *data_, void *idx __unused)`. -/
def __ubsan_handle_out_of_bounds (sp : Bool) (data : out_of_bounds_data)
    (idx : Nat) : handler_result out_of_bounds_data :=
  let r := ubsan_handle_error "__ubsan_handle_out_of_bounds" data.loc sp
  { data := { data with loc := r.loc }, emitted := r.emitted,
    halted := r.halted }

/-- C: `__noreturn __ubsan_handle_builtin_unreachable(void *data_)` — calls
`ubsan_handle_error(__func__, &data->loc, false)` and then `ubsan_panic()`
unconditionally, so the halt primitive is always reached (the `sp` argument,
the global policy value, is never read by this handler). -/
def __ubsan_handle_builtin_unreachable (sp : Bool) (data : unreachable_data) :
    handler_result unreachable_data :=
  let r := ubsan_handle_error "__ubsan_handle_builtin_unreachable" data.loc
    false
  { data := { data with loc := r.loc }, emitted := r.emitted, halted := true }

/-- C: `__noreturn __ubsan_handle_missing_return(void *data_)` — same shape
as `__ubsan_handle_builtin_unreachable`. -/
def __ubsan_handle_missing_return (sp : Bool) (data : unreachable_data) :
    handler_result unreachable_data :=
  let r := ubsan_handle_error "__ubsan_handle_missing_return" data.loc false
  { data := { data with loc := r.loc }, emitted := r.emitted, halted := true }

/-- C: `__ubsan_handle_vla_bound_not_positive(void *data_, void *bound
__unused)`. -/
def __ubsan_handle_vla_bound_not_positive (sp : Bool) (data : vla_bound_data)
    (bound : Nat) : handler_result vla_bound_data :=
  let r := ubsan_handle_error "__ubsan_handle_vla_bound_not_positive"
    data.loc sp
  { data := { data with loc := r.loc }, emitted := r.emitted,
    halted := r.halted }

/-- C: `__ubsan_handle_load_invalid_value(void *data_, void *val
__unused)`. -/
def __ubsan_handle_load_invalid_value (sp : Bool) (data : invalid_value_data)
    (val : Nat) : handler_result invalid_value_data :=
  let r := ubsan_handle_error "__ubsan_handle_load_invalid_value" data.loc sp
  { data := { data with loc := r.loc }, emitted := r.emitted,
    halted := r.halted }

/-- C: `__ubsan_handle_nonnull_arg(void *data_)` (the `__GCC_VERSION <
60000` build adds a `size_t arg_no __unused` argument that is never
read). -/
def __ubsan_handle_nonnull_arg (sp : Bool) (data : nonnull_arg_data) :
    handler_result nonnull_arg_data :=
  let r := ubsan_handle_error "__ubsan_handle_nonnull_arg" data.loc sp
  { data := { data with loc := r.loc }, emitted := r.emitted,
    halted := r.halted }

/-- C: `__ubsan_handle_invalid_builtin(void *data_)`. -/
def __ubsan_handle_invalid_builtin (sp : Bool) (data : invalid_builtin_data) :
    handler_result invalid_builtin_data :=
  let r := ubsan_handle_error "__ubsan_handle_invalid_builtin" data.loc sp
  { data := { data with loc := r.loc }, emitted := r.emitted,
    halted := r.halted }

/-- Sequential iteration of the dedup/report core: `n` successive calls of
the same entry point (name `func`, policy `sp`) on the same location,
threading the location state and concatenating the emitted lines. -/
def run_calls (func : String) (sp : Bool) : Nat → source_location →
    source_location × List String
  | 0, loc => (loc, [])
  | n+1, loc =>
      let r := ubsan_handle_error func loc sp
      let rest := run_calls func sp n r.loc
      (rest.1, r.emitted ++ rest.2)

/-- Sequential iteration of arbitrary entry-point calls (each given by its
`__func__` string and the policy value at call time) on one location. -/
def run_seq (loc : source_location) : List (String × Bool) → source_location
  | [] => loc
  | c :: cs => run_seq (ubsan_handle_error c.1 loc c.2).loc cs

/-- Local state of one execution context racing through
`was_already_reported`: before the read of `loc->column`, after the read
(holding the snapshot value), or finished with the function's boolean
result. -/
inductive thread_state where
  | start : thread_state
  | read_done : Nat → thread_state
  | done : Bool → thread_state
deriving DecidableEq

/-- C: `atomic_cas_u32(p, oval, nval)` — one atomic compare-and-swap of the
whole word: succeeds (and stores `nval`) iff the word still equals the
expected value.  Returns (success, new word value). -/
def atomic_cas_u32 (mem expected nval : Nat) : Bool × Nat :=
  if mem = expected then (true, nval) else (false, mem)

/-- One atomic step of a single context executing `was_already_reported`
against the shared `column` word `mem`: the read and the CAS are the only
shared-memory accesses, each a single atomic step.  Returns the new local
state and the new shared word. -/
def thread_step (mem : Nat) : thread_state → thread_state × Nat
  | .start => (.read_done mem, mem)
  | .read_done col =>
      if col &&& UBSAN_LOC_REPORTED ≠ 0 then
        (.done true, mem)
      else
        let c := atomic_cas_u32 mem col (col ||| UBSAN_LOC_REPORTED)
        (.done (!c.1), c.2)
  | .done b => (.done b, mem)

/-- Shared configuration: the `column` word and the local state of each
concurrent caller. -/
structure cas_config where
  mem : Nat
  threads : List thread_state
deriving DecidableEq

/-- Scheduler step: let thread `i` take its next atomic step (no-op if `i`
is out of range or the thread already finished). -/
def sched_step (cfg : cas_config) (i : Nat) : cas_config :=
  match cfg.threads[i]? with
  | none => cfg
  | some t =>
      let s := thread_step cfg.mem t
      { mem := s.2, threads := cfg.threads.set i s.1 }

/-- Run a whole schedule (an arbitrary interleaving, given as the sequence
of thread indices that take successive atomic steps). -/
def sched_run (cfg : cas_config) : List Nat → cas_config
  | [] => cfg
  | i :: s => sched_run (sched_step cfg i) s

/-- A context has finished `was_already_reported`. -/
def is_done : thread_state → Bool
  | .done _ => true
  | _ => false

/-- Number of contexts that observed "not yet reported" (result `false`),
i.e. that proceed to the emission/halt branch. -/
def count_winners (ts : List thread_state) : Nat :=
  ts.countP (fun t => decide (t = thread_state.done false))

/-- Bit 31 is clear in every `u32` below `2^31`. -/
theorem and_rb_eq_zero_of_lt (c : Nat) (h : c < 2^31) :
    c &&& UBSAN_LOC_REPORTED = 0 := by
  unfold UBSAN_LOC_REPORTED
  rw [Nat.and_two_pow, Nat.testBit_lt_two_pow h]
  rfl

/-- Masking the reserved bit back off recovers the semantic column. -/
theorem or_rb_mask (c : Nat) (h : c < 2^31) :
    (c ||| UBSAN_LOC_REPORTED) &&& (UBSAN_LOC_REPORTED - 1) = c := by
  unfold UBSAN_LOC_REPORTED
  rw [Nat.and_pow_two_sub_one_eq_mod]
  apply Nat.eq_of_testBit_eq
  intro i
  rw [Nat.testBit_mod_two_pow, Nat.testBit_lor]
  by_cases hi : i < 31
  · have h2 : (2^31 : Nat).testBit i = false := by
      rw [Nat.testBit_two_pow]
      exact decide_eq_false (by omega)
    rw [h2, Bool.or_false, decide_eq_true hi, Bool.true_and]
  · have hc : c.testBit i = false :=
      Nat.testBit_lt_two_pow
        (Nat.lt_of_lt_of_le h (Nat.pow_le_pow_right (by omega) (by omega)))
    rw [hc, decide_eq_false hi, Bool.false_and]

/-- Setting the reserved bit makes it set, whatever the column was. -/
theorem or_rb_ne_zero (c : Nat) :
    (c ||| UBSAN_LOC_REPORTED) &&& UBSAN_LOC_REPORTED ≠ 0 := by
  unfold UBSAN_LOC_REPORTED
  rw [Nat.and_two_pow, Nat.testBit_lor]
  have h2 : Nat.testBit (2^31) 31 = true := by decide
  rw [h2, Bool.or_true]
  simp

/-- Unfolding of the dedup/report core on an already-reported location. -/
theorem handle_error_reported (func : String) (loc : source_location)
    (sp : Bool) (h : loc.column &&& UBSAN_LOC_REPORTED ≠ 0) :
    ubsan_handle_error func loc sp = ⟨loc, [], false⟩ := by
  unfold ubsan_handle_error was_already_reported
  simp [h]

/-- Unfolding of the dedup/report core on a fresh location (reserved bit
clear in a `u32` column, i.e. `column < 2^31`). -/
theorem handle_error_fresh (func : String) (loc : source_location)
    (sp : Bool) (h : loc.column < 2^31) :
    ubsan_handle_error func loc sp =
      ⟨{ loc with column := loc.column ||| UBSAN_LOC_REPORTED },
       [emsg_raw_line (strip_func_pfx func) loc.file_name loc.line
         loc.column],
       sp⟩ := by
  unfold ubsan_handle_error was_already_reported
  simp [and_rb_eq_zero_of_lt loc.column h, or_rb_mask loc.column h]

/-- Before the reserved bit is set, every context is either still to read
or holds the current (bit-clear) word as its snapshot. -/
def all_simple (mem : Nat) (ts : List thread_state) : Prop :=
  ∀ t ∈ ts, t = thread_state.start ∨ t = thread_state.read_done mem

/-- Invariant of the concurrent dedup: either the reserved bit is still
clear, no context has won, and every context is pre-CAS with the current
word as snapshot; or the bit is set and exactly one context has won. -/
def cas_inv (cfg : cas_config) : Prop :=
  (cfg.mem &&& UBSAN_LOC_REPORTED = 0 ∧ count_winners cfg.threads = 0
    ∧ all_simple cfg.mem cfg.threads)
  ∨ (cfg.mem &&& UBSAN_LOC_REPORTED ≠ 0 ∧ count_winners cfg.threads = 1)

/-- Replacing a non-winner by a non-winner keeps the winner count. -/
theorem count_winners_set_same (ts : List thread_state) (i : Nat)
    (a : thread_state) (hi : i < ts.length)
    (hold : ¬ts[i] = thread_state.done false)
    (hnew : ¬a = thread_state.done false) :
    count_winners (ts.set i a) = count_winners ts := by
  unfold count_winners
  rw [List.countP_set _ _ _ _ hi]
  simp [hold, hnew]

/-- Replacing a non-winner by the winner adds one to the winner count. -/
theorem count_winners_set_win (ts : List thread_state) (i : Nat)
    (hi : i < ts.length) (hold : ¬ts[i] = thread_state.done false) :
    count_winners (ts.set i (thread_state.done false)) =
      count_winners ts + 1 := by
  unfold count_winners
  rw [List.countP_set _ _ _ _ hi]
  simp [hold]

/-- Writing back the element already stored at an index is a no-op. -/
theorem list_set_self {α : Type} (l : List α) (i : Nat) (h : i < l.length) :
    l.set i l[i] = l := by
  apply List.ext_getElem
  · simp
  · intro n h1 h2
    rw [List.getElem_set]
    split
    next he => subst he; rfl
    next => rfl

/-- Reduction of `sched_step` when thread `i` exists. -/
theorem sched_step_some (cfg : cas_config) (i : Nat) (t : thread_state)
    (hget : cfg.threads[i]? = some t) :
    sched_step cfg i =
      ⟨(thread_step cfg.mem t).2,
       cfg.threads.set i (thread_step cfg.mem t).1⟩ := by
  unfold sched_step
  rw [hget]

/-- One scheduler step preserves the dedup invariant. -/
theorem cas_inv_step (cfg : cas_config) (i : Nat) (h : cas_inv cfg) :
    cas_inv (sched_step cfg i) := by
  cases hget : cfg.threads[i]? with
  | none =>
    unfold sched_step
    rw [hget]
    exact h
  | some t =>
    rw [sched_step_some cfg i t hget]
    obtain ⟨hi, hti⟩ := List.getElem?_eq_some.mp hget
    have hmem : t ∈ cfg.threads := hti ▸ List.getElem_mem hi
    rcases h with ⟨hA0, hA1, hA2⟩ | ⟨hB0, hB1⟩
    · rcases hA2 t hmem with rfl | rfl
      · -- a pre-read context reads the word
        have hstep : thread_step cfg.mem thread_state.start =
            (thread_state.read_done cfg.mem, cfg.mem) := rfl
        rw [hstep]
        left
        refine ⟨hA0, ?_, ?_⟩
        · exact hA1 ▸
            count_winners_set_same _ _ _ hi (by rw [hti]; simp) (by simp)
        · intro u hu
          rcases List.mem_or_eq_of_mem_set hu with hu' | rfl
          · exact hA2 u hu'
          · exact Or.inr rfl
      · -- the snapshot matches the word: the CAS succeeds, this context wins
        have hstep : thread_step cfg.mem (thread_state.read_done cfg.mem) =
            (thread_state.done false,
             cfg.mem ||| UBSAN_LOC_REPORTED) := by
          unfold thread_step atomic_cas_u32
          simp [hA0]
        rw [hstep]
        right
        refine ⟨or_rb_ne_zero cfg.mem, ?_⟩
        rw [count_winners_set_win _ _ hi (by rw [hti]; simp), hA1]
    · -- bit already set: no further context can win
      cases t with
      | start =>
        have hstep : thread_step cfg.mem thread_state.start =
            (thread_state.read_done cfg.mem, cfg.mem) := rfl
        rw [hstep]
        right
        exact ⟨hB0, by
          rw [count_winners_set_same _ _ _ hi (by rw [hti]; simp) (by simp)]
          exact hB1⟩
      | read_done col =>
        by_cases hcol : col &&& UBSAN_LOC_REPORTED ≠ 0
        · have hstep : thread_step cfg.mem (thread_state.read_done col) =
              (thread_state.done true, cfg.mem) := by
            unfold thread_step
            simp [hcol]
          rw [hstep]
          right
          exact ⟨hB0, by
            rw [count_winners_set_same _ _ _ hi (by rw [hti]; simp) (by simp)]
            exact hB1⟩
        · -- stale bit-clear snapshot: the word changed, the CAS fails
          have hne : cfg.mem ≠ col := by
            intro he
            exact hB0 (he ▸ (not_not.mp hcol))
          have hstep : thread_step cfg.mem (thread_state.read_done col) =
              (thread_state.done true, cfg.mem) := by
            unfold thread_step atomic_cas_u32
            simp [hcol, hne]
          rw [hstep]
          right
          exact ⟨hB0, by
            rw [count_winners_set_same _ _ _ hi (by rw [hti]; simp) (by simp)]
            exact hB1⟩
      | done b =>
        have hstep : thread_step cfg.mem (thread_state.done b) =
            (thread_state.done b, cfg.mem) := rfl
        rw [hstep]
        right
        refine ⟨hB0, ?_⟩
        have hset : cfg.threads.set i (thread_state.done b) = cfg.threads := by
          rw [← hti]
          exact list_set_self _ _ hi
        rw [hset]
        exact hB1

/-- A whole schedule preserves the dedup invariant. -/
theorem cas_inv_run (cfg : cas_config) (s : List Nat) (h : cas_inv cfg) :
    cas_inv (sched_run cfg s) := by
  induction s generalizing cfg with
  | nil => exact h
  | cons i s ih => exact ih _ (cas_inv_step cfg i h)

/-- Scheduling never changes the number of contexts. -/
theorem sched_run_length (cfg : cas_config) (s : List Nat) :
    (sched_run cfg s).threads.length = cfg.threads.length := by
  induction s generalizing cfg with
  | nil => rfl
  | cons i s ih =>
    rw [show sched_run cfg (i :: s) = sched_run (sched_step cfg i) s from rfl,
      ih]
    unfold sched_step
    cases hget : cfg.threads[i]? <;> simp

/-- Once the reserved bit is set, iterated calls change nothing and emit
nothing. -/
theorem run_calls_reported (func : String) (sp : Bool)
    (loc : source_location) (h : loc.column &&& UBSAN_LOC_REPORTED ≠ 0)
    (n : Nat) : run_calls func sp n loc = (loc, []) := by
  induction n with
  | zero => rfl
  | succ n ih =>
    unfold run_calls
    rw [handle_error_reported func loc sp h]
    simp [ih]

/-- Claim C1: reporting is idempotent.  A non-fatal call on a location whose
reported flag (bit 31 of `column`) is already set emits nothing, does not
halt, and leaves the column word unchanged; and over `N > 1` sequential
calls with the policy disabled, exactly one diagnostic line is emitted in
total, the column word afterwards is the original with only the reserved
bit added, and its semantic bits (reserved bit masked off) are the original
column. -/
theorem ubsan_c1_idempotence (func : String) (loc : source_location)
    (N : Nat) :
    (loc.column &&& UBSAN_LOC_REPORTED ≠ 0 →
      ubsan_handle_error func loc false = ⟨loc, [], false⟩)
    ∧ (loc.column < 2^31 → 1 < N →
        (run_calls func false N loc).2 =
          [emsg_raw_line (strip_func_pfx func) loc.file_name loc.line
            loc.column]
        ∧ (run_calls func false N loc).1 =
            { loc with column := loc.column ||| UBSAN_LOC_REPORTED }
        ∧ (run_calls func false N loc).1.column &&&
            (UBSAN_LOC_REPORTED - 1) = loc.column) := by
  constructor
  · exact handle_error_reported func loc false
  · intro h hN
    obtain ⟨m, rfl⟩ : ∃ m, N = m + 1 := ⟨N - 1, by omega⟩
    have hfresh := handle_error_fresh func loc false h
    have hset : ({ loc with column := loc.column ||| UBSAN_LOC_REPORTED } :
        source_location).column &&& UBSAN_LOC_REPORTED ≠ 0 :=
      or_rb_ne_zero loc.column
    have hrun : run_calls func false (m + 1) loc =
        ({ loc with column := loc.column ||| UBSAN_LOC_REPORTED },
         [emsg_raw_line (strip_func_pfx func) loc.file_name loc.line
           loc.column]) := by
      unfold run_calls
      rw [hfresh]
      show ((run_calls func false m _).1,
        _ ++ (run_calls func false m _).2) = _
      rw [run_calls_reported func false _ hset m]
      rfl
    rw [hrun]
    exact ⟨rfl, rfl, or_rb_mask loc.column h⟩

/-- Witness for C1 at the spec's own scenario: location `a.c:10` column 5,
three calls to the add-overflow entry point with the policy disabled. -/
theorem ubsan_c1_idempotence_witness :
    (run_calls "__ubsan_handle_add_overflow" false 3 ⟨"a.c", 10, 5⟩).2 =
      ["Undefined behavior add_overflow at a.c:10 col 5"]
    ∧ (run_calls "__ubsan_handle_add_overflow" false 3
        ⟨"a.c", 10, 5⟩).1.column = 5 ||| UBSAN_LOC_REPORTED := by
  have h := (ubsan_c1_idempotence "__ubsan_handle_add_overflow"
    ⟨"a.c", 10, 5⟩ 3).2 (by decide) (by decide)
  exact ⟨h.1.trans (by decide), by rw [h.2.1]⟩

/-- Claim C2: the two fatal entry points (`__ubsan_handle_builtin_unreachable`
and `__ubsan_handle_missing_return`) always transfer control to the halt
primitive and never return to the caller, for every descriptor (already
reported or not) and every value of the global policy flag. -/
theorem ubsan_c2_fatal_never_returns (sp : Bool) (data : unreachable_data) :
    (__ubsan_handle_builtin_unreachable sp data).halted = true
    ∧ (__ubsan_handle_missing_return sp data).halted = true :=
  ⟨rfl, rfl⟩

/-- Claim C4: concurrent deduplication.  For any number of concurrent
callers racing through `was_already_reported` on one location whose
reserved bit starts clear, under every scheduling interleaving in which all
callers finish, exactly one caller observes "not yet reported" (and so
performs the emission/halt branch); all others return silently.  The
test-and-set is the single atomic compare-and-swap step `atomic_cas_u32`
of the whole column word inside `thread_step`. -/
theorem ubsan_c4_concurrent_dedup (K c : Nat) (sched : List Nat)
    (hc : c &&& UBSAN_LOC_REPORTED = 0) (hK : 0 < K)
    (hdone : ∀ t ∈ (sched_run ⟨c, List.replicate K thread_state.start⟩
        sched).threads, is_done t = true) :
    count_winners (sched_run ⟨c, List.replicate K thread_state.start⟩
      sched).threads = 1 := by
  have hinv0 : cas_inv ⟨c, List.replicate K thread_state.start⟩ := by
    left
    refine ⟨hc, ?_, ?_⟩
    · unfold count_winners
      rw [List.countP_replicate]
      simp
    · intro t ht
      exact Or.inl (List.eq_of_mem_replicate ht)
  have hinv := cas_inv_run _ sched hinv0
  rcases hinv with ⟨h0, h1, h2⟩ | ⟨h0, h1⟩
  · exfalso
    have hlen : (sched_run ⟨c, List.replicate K thread_state.start⟩
        sched).threads.length = K := by
      rw [sched_run_length]
      exact List.length_replicate ..
    have hne : (sched_run ⟨c, List.replicate K thread_state.start⟩
        sched).threads ≠ [] := by
      intro hnil
      rw [hnil] at hlen
      simp at hlen
      omega
    obtain ⟨t, ht⟩ := List.exists_mem_of_ne_nil _ hne
    rcases h2 t ht with rfl | rfl
    · simpa [is_done] using hdone _ ht
    · simpa [is_done] using hdone _ ht
  · exact h1

/-- Witness for C4: two contexts, column 5, the interleaving where both
read before either CAS runs — the first CAS wins, the second fails. -/
theorem ubsan_c4_concurrent_dedup_witness :
    (5 : Nat) &&& UBSAN_LOC_REPORTED = 0 ∧ (0 : Nat) < 2 ∧
    count_winners (sched_run ⟨5, List.replicate 2 thread_state.start⟩
      [0, 1, 0, 1]).threads = 1 :=
  ⟨by decide, by decide,
   ubsan_c4_concurrent_dedup 2 5 [0, 1, 0, 1] (by decide) (by decide)
     (by decide)⟩

/-- On a fresh location the core halts iff the panic flag is set and emits
exactly one line. -/
theorem handle_error_policy (func : String) (loc : source_location)
    (sp : Bool) (h : loc.column < 2^31) :
    (ubsan_handle_error func loc sp).halted = sp
    ∧ (ubsan_handle_error func loc sp).emitted.length = 1 := by
  rw [handle_error_fresh func loc sp h]
  exact ⟨rfl, rfl⟩

/-- Claim C3: policy respected for every non-fatal entry point.  On a
location whose reported flag is clear, each of the fourteen non-fatal entry
points transfers to the halt primitive iff the global policy flag `sp` is
true at the time of the call, and emits its single diagnostic line (in
particular, with `sp = false` it emits the line and returns control). -/
theorem ubsan_c3_policy_nonfatal (sp : Bool) :
    (∀ (d : type_mismatch_data) (p : Nat), d.loc.column < 2^31 →
      (__ubsan_handle_type_mismatch sp d p).halted = sp
      ∧ (__ubsan_handle_type_mismatch sp d p).emitted.length = 1)
    ∧ (∀ (d : type_mismatch_data) (p : Nat), d.loc.column < 2^31 →
      (__ubsan_handle_type_mismatch_v1 sp d p).halted = sp
      ∧ (__ubsan_handle_type_mismatch_v1 sp d p).emitted.length = 1)
    ∧ (∀ (d : overflow_data) (a b : Nat), d.loc.column < 2^31 →
      (__ubsan_handle_add_overflow sp d a b).halted = sp
      ∧ (__ubsan_handle_add_overflow sp d a b).emitted.length = 1)
    ∧ (∀ (d : overflow_data) (a b : Nat), d.loc.column < 2^31 →
      (__ubsan_handle_sub_overflow sp d a b).halted = sp
      ∧ (__ubsan_handle_sub_overflow sp d a b).emitted.length = 1)
    ∧ (∀ (d : overflow_data) (a b : Nat), d.loc.column < 2^31 →
      (__ubsan_handle_mul_overflow sp d a b).halted = sp
      ∧ (__ubsan_handle_mul_overflow sp d a b).emitted.length = 1)
    ∧ (∀ (d : overflow_data) (a : Nat), d.loc.column < 2^31 →
      (__ubsan_handle_negate_overflow sp d a).halted = sp
      ∧ (__ubsan_handle_negate_overflow sp d a).emitted.length = 1)
    ∧ (∀ (d : overflow_data) (a b : Nat), d.loc.column < 2^31 →
      (__ubsan_handle_divrem_overflow sp d a b).halted = sp
      ∧ (__ubsan_handle_divrem_overflow sp d a b).emitted.length = 1)
    ∧ (∀ (d : overflow_data) (a b : Nat), d.loc.column < 2^31 →
      (__ubsan_handle_pointer_overflow sp d a b).halted = sp
      ∧ (__ubsan_handle_pointer_overflow sp d a b).emitted.length = 1)
    ∧ (∀ (d : shift_out_of_bounds_data) (a b : Nat), d.loc.column < 2^31 →
      (__ubsan_handle_shift_out_of_bounds sp d a b).halted = sp
      ∧ (__ubsan_handle_shift_out_of_bounds sp d a b).emitted.length = 1)
    ∧ (∀ (d : out_of_bounds_data) (a : Nat), d.loc.column < 2^31 →
      (__ubsan_handle_out_of_bounds sp d a).halted = sp
      ∧ (__ubsan_handle_out_of_bounds sp d a).emitted.length = 1)
    ∧ (∀ (d : vla_bound_data) (a : Nat), d.loc.column < 2^31 →
      (__ubsan_handle_vla_bound_not_positive sp d a).halted = sp
      ∧ (__ubsan_handle_vla_bound_not_positive sp d a).emitted.length = 1)
    ∧ (∀ (d : invalid_value_data) (a : Nat), d.loc.column < 2^31 →
      (__ubsan_handle_load_invalid_value sp d a).halted = sp
      ∧ (__ubsan_handle_load_invalid_value sp d a).emitted.length = 1)
    ∧ (∀ (d : nonnull_arg_data), d.loc.column < 2^31 →
      (__ubsan_handle_nonnull_arg sp d).halted = sp
      ∧ (__ubsan_handle_nonnull_arg sp d).emitted.length = 1)
    ∧ (∀ (d : invalid_builtin_data), d.loc.column < 2^31 →
      (__ubsan_handle_invalid_builtin sp d).halted = sp
      ∧ (__ubsan_handle_invalid_builtin sp d).emitted.length = 1) :=
  ⟨fun d _ h => handle_error_policy _ d.loc sp h,
   fun d _ h => handle_error_policy _ d.loc sp h,
   fun d _ _ h => handle_error_policy _ d.loc sp h,
   fun d _ _ h => handle_error_policy _ d.loc sp h,
   fun d _ _ h => handle_error_policy _ d.loc sp h,
   fun d _ h => handle_error_policy _ d.loc sp h,
   fun d _ _ h => handle_error_policy _ d.loc sp h,
   fun d _ _ h => handle_error_policy _ d.loc sp h,
   fun d _ _ h => handle_error_policy _ d.loc sp h,
   fun d _ h => handle_error_policy _ d.loc sp h,
   fun d _ h => handle_error_policy _ d.loc sp h,
   fun d _ h => handle_error_policy _ d.loc sp h,
   fun d h => handle_error_policy _ d.loc sp h,
   fun d h => handle_error_policy _ d.loc sp h⟩

/-- Witness for C3 at a concrete fresh overflow descriptor, policy off and
policy on. -/
theorem ubsan_c3_policy_nonfatal_witness :
    (__ubsan_handle_add_overflow false ⟨⟨"a.c", 10, 5⟩, ⟨0, 0, "int"⟩⟩
      0 0).halted = false
    ∧ (__ubsan_handle_add_overflow true ⟨⟨"a.c", 10, 5⟩, ⟨0, 0, "int"⟩⟩
      0 0).halted = true :=
  ⟨((ubsan_c3_policy_nonfatal false).2.2.1 ⟨⟨"a.c", 10, 5⟩, ⟨0, 0, "int"⟩⟩
      0 0 (by decide)).1,
   ((ubsan_c3_policy_nonfatal true).2.2.1 ⟨⟨"a.c", 10, 5⟩, ⟨0, 0, "int"⟩⟩
      0 0 (by decide)).1⟩

/-- Claim C5: frame of the first report.  On a location with column `c`
(top bit clear), one call to the dedup/report core sets exactly the
reserved bit: the column becomes `c ||| UBSAN_LOC_REPORTED`, masking the
reserved bit off recovers `c`, `file_name` and `line` are unchanged, and
(shown for the type-mismatch descriptor) every other descriptor field is
unchanged. -/
theorem ubsan_c5_frame (func : String) (sp : Bool) (loc : source_location)
    (h : loc.column < 2^31) :
    (ubsan_handle_error func loc sp).loc.column =
      loc.column ||| UBSAN_LOC_REPORTED
    ∧ (ubsan_handle_error func loc sp).loc.column &&&
        (UBSAN_LOC_REPORTED - 1) = loc.column
    ∧ (ubsan_handle_error func loc sp).loc.file_name = loc.file_name
    ∧ (ubsan_handle_error func loc sp).loc.line = loc.line
    ∧ (∀ (d : type_mismatch_data) (p : Nat),
        (__ubsan_handle_type_mismatch sp d p).data.type = d.type
        ∧ (__ubsan_handle_type_mismatch sp d p).data.alignment = d.alignment
        ∧ (__ubsan_handle_type_mismatch sp d p).data.type_check_kind =
            d.type_check_kind) := by
  rw [handle_error_fresh func loc sp h]
  exact ⟨rfl, or_rb_mask loc.column h, rfl, rfl, fun d p => ⟨rfl, rfl, rfl⟩⟩

/-- Witness for C5 at the concrete location `a.c:10` column 5. -/
theorem ubsan_c5_frame_witness :
    (ubsan_handle_error "__ubsan_handle_add_overflow" ⟨"a.c", 10, 5⟩
      false).loc.column = 5 ||| UBSAN_LOC_REPORTED
    ∧ (ubsan_handle_error "__ubsan_handle_add_overflow" ⟨"a.c", 10, 5⟩
        false).loc.column &&& (UBSAN_LOC_REPORTED - 1) = 5 :=
  ⟨(ubsan_c5_frame "__ubsan_handle_add_overflow" false ⟨"a.c", 10, 5⟩
      (by decide)).1,
   (ubsan_c5_frame "__ubsan_handle_add_overflow" false ⟨"a.c", 10, 5⟩
      (by decide)).2.1⟩

/-- Claim C6: on the first report exactly one line is emitted, and it is
built from the short event name (the handler's `__func__` with the
`__ubsan_handle` prefix and the character after it stripped when the first
14 bytes match), the file name, the line number, and the semantic column
(reserved bit masked off). -/
theorem ubsan_c6_diag_line (func : String) (sp : Bool)
    (loc : source_location) (h : loc.column < 2^31) :
    (ubsan_handle_error func loc sp).emitted =
      [emsg_raw_line (strip_func_pfx func) loc.file_name loc.line
        loc.column]
    ∧ (ubsan_handle_error func loc sp).emitted.length = 1
    ∧ (func.take 14 = func_pfx_str → strip_func_pfx func = func.drop 15)
    ∧ strip_func_pfx "__ubsan_handle_type_mismatch" = "type_mismatch"
    ∧ strip_func_pfx "__ubsan_handle_add_overflow" = "add_overflow"
    ∧ strip_func_pfx "__ubsan_handle_builtin_unreachable" =
        "builtin_unreachable" := by
  rw [handle_error_fresh func loc sp h]
  refine ⟨rfl, rfl, ?_, by decide, by decide, by decide⟩
  intro hp
  unfold strip_func_pfx
  rw [if_pos hp]

/-- Witness for C6: the concrete line for the add-overflow handler at
`a.c:10` column 5. -/
theorem ubsan_c6_diag_line_witness :
    (ubsan_handle_error "__ubsan_handle_add_overflow" ⟨"a.c", 10, 5⟩
      false).emitted =
      [emsg_raw_line (strip_func_pfx "__ubsan_handle_add_overflow")
        "a.c" 10 5] :=
  (ubsan_c6_diag_line "__ubsan_handle_add_overflow" false ⟨"a.c", 10, 5⟩
    (by decide)).1

/-- The dedup state change, halt decision, and number of emitted lines of
the core do not depend on the `__func__` string. -/
theorem handle_error_indep (f1 f2 : String) (loc : source_location)
    (sp : Bool) :
    (ubsan_handle_error f1 loc sp).loc = (ubsan_handle_error f2 loc sp).loc
    ∧ (ubsan_handle_error f1 loc sp).halted =
        (ubsan_handle_error f2 loc sp).halted
    ∧ (ubsan_handle_error f1 loc sp).emitted.length =
        (ubsan_handle_error f2 loc sp).emitted.length := by
  by_cases h : loc.column &&& UBSAN_LOC_REPORTED = 0
  · unfold ubsan_handle_error was_already_reported
    simp [h]
  · rw [handle_error_reported f1 loc sp h,
      handle_error_reported f2 loc sp h]
    exact ⟨rfl, rfl, rfl⟩

/-- Counterexample to C7 as stated: the two type-mismatch entry points do
NOT produce identical diagnostic lines on the same fresh descriptor,
because each passes its own `__func__`, so the short event names differ
("type_mismatch" vs "type_mismatch_v1"). -/
theorem ubsan_c7_counterexample :
    (__ubsan_handle_type_mismatch false
        ⟨⟨"a.c", 10, 5⟩, ⟨0, 0, "int"⟩, 4, 0⟩ 0).emitted ≠
    (__ubsan_handle_type_mismatch_v1 false
        ⟨⟨"a.c", 10, 5⟩, ⟨0, 0, "int"⟩, 4, 0⟩ 0).emitted := by
  decide

/-- Claim C7 (amended): `__ubsan_handle_type_mismatch` and
`__ubsan_handle_type_mismatch_v1` are equivalent aside from the ignored
extra pointer argument and the short event name in the diagnostic: same
dedup state change, same halt decision, same number of emitted lines; on a
fresh location the lines differ exactly in the event name ("type_mismatch"
vs "type_mismatch_v1"). -/
theorem ubsan_c7_equiv_amended (sp : Bool) (d : type_mismatch_data)
    (p q : Nat) :
    (__ubsan_handle_type_mismatch sp d p).data =
      (__ubsan_handle_type_mismatch_v1 sp d q).data
    ∧ (__ubsan_handle_type_mismatch sp d p).halted =
      (__ubsan_handle_type_mismatch_v1 sp d q).halted
    ∧ (__ubsan_handle_type_mismatch sp d p).emitted.length =
      (__ubsan_handle_type_mismatch_v1 sp d q).emitted.length
    ∧ (d.loc.column < 2^31 →
        (__ubsan_handle_type_mismatch sp d p).emitted =
          [emsg_raw_line "type_mismatch" d.loc.file_name d.loc.line
            d.loc.column]
        ∧ (__ubsan_handle_type_mismatch_v1 sp d q).emitted =
          [emsg_raw_line "type_mismatch_v1" d.loc.file_name d.loc.line
            d.loc.column]) := by
  have key := handle_error_indep "__ubsan_handle_type_mismatch"
    "__ubsan_handle_type_mismatch_v1" d.loc sp
  refine ⟨?_, key.2.1, key.2.2, ?_⟩
  · simp only [__ubsan_handle_type_mismatch, __ubsan_handle_type_mismatch_v1]
    rw [key.1]
  · intro h
    have hs1 : strip_func_pfx "__ubsan_handle_type_mismatch" =
        "type_mismatch" := by decide
    have hs2 : strip_func_pfx "__ubsan_handle_type_mismatch_v1" =
        "type_mismatch_v1" := by decide
    constructor
    · show (ubsan_handle_error "__ubsan_handle_type_mismatch" d.loc
        sp).emitted = _
      rw [handle_error_fresh _ _ _ h, hs1]
    · show (ubsan_handle_error "__ubsan_handle_type_mismatch_v1" d.loc
        sp).emitted = _
      rw [handle_error_fresh _ _ _ h, hs2]

/-- Witness for the amended C7 at a concrete fresh descriptor. -/
theorem ubsan_c7_equiv_amended_witness :
    (__ubsan_handle_type_mismatch false
        ⟨⟨"a.c", 10, 5⟩, ⟨0, 0, "int"⟩, 4, 0⟩ 0).emitted =
      [emsg_raw_line "type_mismatch" "a.c" 10 5]
    ∧ (__ubsan_handle_type_mismatch_v1 false
        ⟨⟨"a.c", 10, 5⟩, ⟨0, 0, "int"⟩, 4, 0⟩ 1).emitted =
      [emsg_raw_line "type_mismatch_v1" "a.c" 10 5] :=
  (ubsan_c7_equiv_amended false ⟨⟨"a.c", 10, 5⟩, ⟨0, 0, "int"⟩, 4, 0⟩
    0 1).2.2.2 (by decide)

/-- Claim C8: operand noninterference.  Every entry point that takes opaque
operand pointers (the extra pointer of the type-mismatch pair, left/right
operands, the old value, the index, the bound, the loaded value) behaves
identically for any values of those arguments — they are never read, so the
emitted line, the column-word change, and the halt decision are independent
of them. -/
theorem ubsan_c8_operand_noninterference (sp : Bool) :
    (∀ (d : type_mismatch_data) (p p' : Nat),
      __ubsan_handle_type_mismatch sp d p =
        __ubsan_handle_type_mismatch sp d p')
    ∧ (∀ (d : type_mismatch_data) (p p' : Nat),
      __ubsan_handle_type_mismatch_v1 sp d p =
        __ubsan_handle_type_mismatch_v1 sp d p')
    ∧ (∀ (d : overflow_data) (a b a' b' : Nat),
      __ubsan_handle_add_overflow sp d a b =
        __ubsan_handle_add_overflow sp d a' b')
    ∧ (∀ (d : overflow_data) (a b a' b' : Nat),
      __ubsan_handle_sub_overflow sp d a b =
        __ubsan_handle_sub_overflow sp d a' b')
    ∧ (∀ (d : overflow_data) (a b a' b' : Nat),
      __ubsan_handle_mul_overflow sp d a b =
        __ubsan_handle_mul_overflow sp d a' b')
    ∧ (∀ (d : overflow_data) (a a' : Nat),
      __ubsan_handle_negate_overflow sp d a =
        __ubsan_handle_negate_overflow sp d a')
    ∧ (∀ (d : overflow_data) (a b a' b' : Nat),
      __ubsan_handle_divrem_overflow sp d a b =
        __ubsan_handle_divrem_overflow sp d a' b')
    ∧ (∀ (d : overflow_data) (a b a' b' : Nat),
      __ubsan_handle_pointer_overflow sp d a b =
        __ubsan_handle_pointer_overflow sp d a' b')
    ∧ (∀ (d : shift_out_of_bounds_data) (a b a' b' : Nat),
      __ubsan_handle_shift_out_of_bounds sp d a b =
        __ubsan_handle_shift_out_of_bounds sp d a' b')
    ∧ (∀ (d : out_of_bounds_data) (a a' : Nat),
      __ubsan_handle_out_of_bounds sp d a =
        __ubsan_handle_out_of_bounds sp d a')
    ∧ (∀ (d : vla_bound_data) (a a' : Nat),
      __ubsan_handle_vla_bound_not_positive sp d a =
        __ubsan_handle_vla_bound_not_positive sp d a')
    ∧ (∀ (d : invalid_value_data) (a a' : Nat),
      __ubsan_handle_load_invalid_value sp d a =
        __ubsan_handle_load_invalid_value sp d a') :=
  ⟨fun _ _ _ => rfl, fun _ _ _ => rfl, fun _ _ _ _ _ => rfl,
   fun _ _ _ _ _ => rfl, fun _ _ _ _ _ => rfl, fun _ _ _ => rfl,
   fun _ _ _ _ _ => rfl, fun _ _ _ _ _ => rfl, fun _ _ _ _ _ => rfl,
   fun _ _ _ => rfl, fun _ _ _ => rfl, fun _ _ _ => rfl⟩

/-- Reduction of the core on a bit-set-free location, state part only (no
width bound needed: the fresh branch always sets the bit). -/
theorem handle_error_not_reported_loc (func : String)
    (loc : source_location) (sp : Bool)
    (h : loc.column &&& UBSAN_LOC_REPORTED = 0) :
    (ubsan_handle_error func loc sp).loc =
      { loc with column := loc.column ||| UBSAN_LOC_REPORTED } := by
  unfold ubsan_handle_error was_already_reported
  simp [h]

/-- Claim C9: the reported bit is monotone.  A call on an already-reported
location leaves it untouched; after any call the reported bit of the
resulting location is set; and once set it stays set under any sequence of
entry-point calls. -/
theorem ubsan_c9_reported_monotone :
    (∀ (func : String) (sp : Bool) (loc : source_location),
      loc.column &&& UBSAN_LOC_REPORTED ≠ 0 →
      (ubsan_handle_error func loc sp).loc = loc)
    ∧ (∀ (func : String) (sp : Bool) (loc : source_location),
      (ubsan_handle_error func loc sp).loc.column &&&
        UBSAN_LOC_REPORTED ≠ 0
      ∨ (ubsan_handle_error func loc sp).loc = loc)
    ∧ (∀ (loc : source_location) (calls : List (String × Bool)),
      loc.column &&& UBSAN_LOC_REPORTED ≠ 0 →
      (run_seq loc calls).column &&& UBSAN_LOC_REPORTED ≠ 0) := by
  refine ⟨?_, ?_, ?_⟩
  · intro func sp loc h
    rw [handle_error_reported func loc sp h]
  · intro func sp loc
    by_cases h : loc.column &&& UBSAN_LOC_REPORTED = 0
    · left
      rw [handle_error_not_reported_loc func loc sp h]
      exact or_rb_ne_zero loc.column
    · right
      rw [handle_error_reported func loc sp h]
  · intro loc calls
    induction calls generalizing loc with
    | nil => exact fun h => h
    | cons c cs ih =>
      intro h
      unfold run_seq
      exact ih _ (by rw [handle_error_reported c.1 loc c.2 h]; exact h)

/-- Witness for C9: a preset-bit location stays reported across a sequence
of two entry-point calls. -/
theorem ubsan_c9_reported_monotone_witness :
    (run_seq ⟨"a.c", 10, 2^31 + 7⟩
      [("__ubsan_handle_add_overflow", false),
       ("__ubsan_handle_type_mismatch", true)]).column &&&
      UBSAN_LOC_REPORTED ≠ 0 :=
  ubsan_c9_reported_monotone.2.2 ⟨"a.c", 10, 2^31 + 7⟩
    [("__ubsan_handle_add_overflow", false),
     ("__ubsan_handle_type_mismatch", true)] (by decide)

/-- Claim C10: a location whose column already has bit 31 set when first
handed over by instrumentation is treated as already reported by the core
and by every non-fatal entry point, on the very first call: nothing is
emitted, the halt primitive is not invoked, and the state is unchanged,
for every value of the policy flag — such a location can never produce a
diagnostic line. -/
theorem ubsan_c10_preset_bit (sp : Bool) :
    (∀ (func : String) (loc : source_location),
      loc.column &&& UBSAN_LOC_REPORTED ≠ 0 →
      ubsan_handle_error func loc sp = ⟨loc, [], false⟩)
    ∧ (∀ (d : type_mismatch_data) (p : Nat),
      d.loc.column &&& UBSAN_LOC_REPORTED ≠ 0 →
      __ubsan_handle_type_mismatch sp d p = ⟨d, [], false⟩)
    ∧ (∀ (d : type_mismatch_data) (p : Nat),
      d.loc.column &&& UBSAN_LOC_REPORTED ≠ 0 →
      __ubsan_handle_type_mismatch_v1 sp d p = ⟨d, [], false⟩)
    ∧ (∀ (d : overflow_data) (a b : Nat),
      d.loc.column &&& UBSAN_LOC_REPORTED ≠ 0 →
      __ubsan_handle_add_overflow sp d a b = ⟨d, [], false⟩)
    ∧ (∀ (d : overflow_data) (a b : Nat),
      d.loc.column &&& UBSAN_LOC_REPORTED ≠ 0 →
      __ubsan_handle_sub_overflow sp d a b = ⟨d, [], false⟩)
    ∧ (∀ (d : overflow_data) (a b : Nat),
      d.loc.column &&& UBSAN_LOC_REPORTED ≠ 0 →
      __ubsan_handle_mul_overflow sp d a b = ⟨d, [], false⟩)
    ∧ (∀ (d : overflow_data) (a : Nat),
      d.loc.column &&& UBSAN_LOC_REPORTED ≠ 0 →
      __ubsan_handle_negate_overflow sp d a = ⟨d, [], false⟩)
    ∧ (∀ (d : overflow_data) (a b : Nat),
      d.loc.column &&& UBSAN_LOC_REPORTED ≠ 0 →
      __ubsan_handle_divrem_overflow sp d a b = ⟨d, [], false⟩)
    ∧ (∀ (d : overflow_data) (a b : Nat),
      d.loc.column &&& UBSAN_LOC_REPORTED ≠ 0 →
      __ubsan_handle_pointer_overflow sp d a b = ⟨d, [], false⟩)
    ∧ (∀ (d : shift_out_of_bounds_data) (a b : Nat),
      d.loc.column &&& UBSAN_LOC_REPORTED ≠ 0 →
      __ubsan_handle_shift_out_of_bounds sp d a b = ⟨d, [], false⟩)
    ∧ (∀ (d : out_of_bounds_data) (a : Nat),
      d.loc.column &&& UBSAN_LOC_REPORTED ≠ 0 →
      __ubsan_handle_out_of_bounds sp d a = ⟨d, [], false⟩)
    ∧ (∀ (d : vla_bound_data) (a : Nat),
      d.loc.column &&& UBSAN_LOC_REPORTED ≠ 0 →
      __ubsan_handle_vla_bound_not_positive sp d a = ⟨d, [], false⟩)
    ∧ (∀ (d : invalid_value_data) (a : Nat),
      d.loc.column &&& UBSAN_LOC_REPORTED ≠ 0 →
      __ubsan_handle_load_invalid_value sp d a = ⟨d, [], false⟩)
    ∧ (∀ (d : nonnull_arg_data),
      d.loc.column &&& UBSAN_LOC_REPORTED ≠ 0 →
      __ubsan_handle_nonnull_arg sp d = ⟨d, [], false⟩)
    ∧ (∀ (d : invalid_builtin_data),
      d.loc.column &&& UBSAN_LOC_REPORTED ≠ 0 →
      __ubsan_handle_invalid_builtin sp d = ⟨d, [], false⟩) := by
  refine ⟨fun func loc h => handle_error_reported func loc sp h,
    ?_, ?_, ?_, ?_, ?_, ?_, ?_, ?_, ?_, ?_, ?_, ?_, ?_, ?_⟩
  · intro d p h
    unfold __ubsan_handle_type_mismatch
    rw [handle_error_reported _ _ _ h]
  · intro d p h
    unfold __ubsan_handle_type_mismatch_v1
    rw [handle_error_reported _ _ _ h]
  · intro d a b h
    unfold __ubsan_handle_add_overflow
    rw [handle_error_reported _ _ _ h]
  · intro d a b h
    unfold __ubsan_handle_sub_overflow
    rw [handle_error_reported _ _ _ h]
  · intro d a b h
    unfold __ubsan_handle_mul_overflow
    rw [handle_error_reported _ _ _ h]
  · intro d a h
    unfold __ubsan_handle_negate_overflow
    rw [handle_error_reported _ _ _ h]
  · intro d a b h
    unfold __ubsan_handle_divrem_overflow
    rw [handle_error_reported _ _ _ h]
  · intro d a b h
    unfold __ubsan_handle_pointer_overflow
    rw [handle_error_reported _ _ _ h]
  · intro d a b h
    unfold __ubsan_handle_shift_out_of_bounds
    rw [handle_error_reported _ _ _ h]
  · intro d a h
    unfold __ubsan_handle_out_of_bounds
    rw [handle_error_reported _ _ _ h]
  · intro d a h
    unfold __ubsan_handle_vla_bound_not_positive
    rw [handle_error_reported _ _ _ h]
  · intro d a h
    unfold __ubsan_handle_load_invalid_value
    rw [handle_error_reported _ _ _ h]
  · intro d h
    unfold __ubsan_handle_nonnull_arg
    rw [handle_error_reported _ _ _ h]
  · intro d h
    unfold __ubsan_handle_invalid_builtin
    rw [handle_error_reported _ _ _ h]

/-- Witness for C10: a location handed over with bit 31 preset (column
`2^31 + 5`) produces no output and no halt even with the policy on. -/
theorem ubsan_c10_preset_bit_witness :
    __ubsan_handle_add_overflow true
      ⟨⟨"a.c", 10, 2^31 + 5⟩, ⟨0, 0, "int"⟩⟩ 0 0 =
      ⟨⟨⟨"a.c", 10, 2^31 + 5⟩, ⟨0, 0, "int"⟩⟩, [], false⟩ :=
  (ubsan_c10_preset_bit true).2.2.2.1
    ⟨⟨"a.c", 10, 2^31 + 5⟩, ⟨0, 0, "int"⟩⟩ 0 0 (by decide)
